import Mathlib

/-!
Shallow embedding of the health-check session controller of
kuattovak/track-facility-frontend.

The repository contains two near-duplicate controller hooks:

* `HC`  — `src/lib/hooks/useHealthCheck.ts` (the named file), together with
  the `HealthCheck` page appended to it, which derives the stage-progress
  value and invokes `handleComplete` when a stage's progress is full;
* `HCF` — the unnamed variant (`src/unnamed/part_000`), which uses a
  device-side `measurementComplete` flag to finalize the alcohol verdict.

Modelling conventions:

* JS numbers carried by sensor payloads are modelled as `Int`; a payload
  field `temperature?: string` is modelled as `Option Int`, the numeric
  coercion of a present, non-empty numeric string (`none` = absent/empty).
  `Number(x) || 0` becomes `Option.getD 0`.
* React state updates (`setState`/`updateState`) become record updates on an
  explicit state value; the mutable ref bag becomes explicit record values.
* `handleComplete` is `async` with a single suspension point at
  `await fetch`.  It is split into a synchronous start phase
  (`handleCompleteStart`, everything up to and including issuing the fetch)
  and a finish phase (`handleCompleteFinish`, the code run when the fetch
  resolves or rejects).  The start phase returns a `CompleteAction`
  describing how the call left the synchronous section.
* `localStorage` writes are modelled as explicit outputs; the durable
  "results" record is a flat key/value list of tagged JSON values.
* Timers: `setTimeout(handleTimeout, SOCKET_TIMEOUT)` is modelled as a
  recorded deadline; an expiry invokes `handleTimeout`, which carries the
  `hasTimedOut` latch exactly as in the source.
-/

namespace HealthTrack

/-- Stage identifiers, `StateKey` in `src/lib/constants`. -/
inductive StateKey where
  | TEMPERATURE
  | ALCOHOL
deriving DecidableEq, Repr

/-- Constant `MAX_STABILITY_TIME = 7` (both variants). -/
def MAX_STABILITY_TIME : Nat := 7

/-- Constant `SOCKET_TIMEOUT = 15000` milliseconds (both variants). -/
def SOCKET_TIMEOUT : Nat := 15000

/-- Constant `STATE_SEQUENCE = ["TEMPERATURE", "ALCOHOL"]` (both variants). -/
def STATE_SEQUENCE : List StateKey := [.TEMPERATURE, .ALCOHOL]

/-- Mutable ref flags relevant to the liveness monitor: `refs.hasTimedOut`
plus the scheduled timeout's deadline (`refs.timeout`, recorded as the
absolute time at which the pending timer fires; `none` = no pending timer). -/
structure TimerRefs where
  hasTimedOut : Bool
  deadline : Option Nat
deriving DecidableEq, Repr

/-- The `handleTimeout` callback (identical in both variants): if the
`hasTimedOut` latch is set, return immediately; otherwise set the latch,
show the timeout toast and navigate home.  The returned `Bool` is `true`
exactly when the timed-out signal (toast + navigation) fired. -/
def handleTimeout (r : TimerRefs) : TimerRefs × Bool :=
  if r.hasTimedOut then (r, false)
  else ({ r with hasTimedOut := true }, true)

/-- The timer reset performed on every accepted data event:
`clearTimeout(refs.timeout); refs.timeout = setTimeout(handleTimeout, SOCKET_TIMEOUT)`. -/
def resetDeadline (r : TimerRefs) (now : Nat) : TimerRefs :=
  { r with deadline := some (now + SOCKET_TIMEOUT) }

/-- Runs `n` timer expirations in sequence (each expiry invokes
`handleTimeout`), returning the final refs and how many timed-out signals
actually fired. -/
def fireExpiries (r : TimerRefs) : Nat → TimerRefs × Nat
  | 0 => (r, 0)
  | n + 1 =>
    let p := handleTimeout r
    let q := fireExpiries p.1 n
    (q.1, (if p.2 then 1 else 0) + q.2)

/-- The submission-guard flag `refs.isSubmitting` (both variants). -/
structure SubmitRefs where
  isSubmitting : Bool
deriving DecidableEq, Repr

/-- Outcome of the synchronous section of one `handleComplete` call. -/
inductive CompleteAction (π : Type) where
  | noop
  | advanced
  | preconditionFailed
  | pendingFetch (payload : π)
deriving DecidableEq, Repr

/-- Number of network submission attempts performed by the synchronous
section of one `handleComplete` call: the fetch is issued exactly on the
`pendingFetch` path. -/
def attemptsOf {π : Type} : CompleteAction π → Nat
  | .pendingFetch _ => 1
  | _ => 0

end HealthTrack

namespace HealthTrack.HC

open HealthTrack

/-- Sensor payload of the named variant: `temperature?: string`,
`alcoholLevel?: string`. -/
structure SensorData where
  temperature : Option Int
  alcoholLevel : Option String
deriving DecidableEq, Repr

/-- State record `HealthCheckState` of the named variant (`temperatureData` and
`alcoholData` wrappers flattened to their single fields). -/
structure HealthCheckState where
  currentState : StateKey
  stabilityTime : Nat
  temperature : Int
  alcoholLevel : String
  secondsLeft : Nat
deriving DecidableEq, Repr

/-- Initial state passed to `useState`. -/
def initialState : HealthCheckState :=
  { currentState := .TEMPERATURE
    stabilityTime := 0
    temperature := 0
    alcoholLevel := "Не определено"
    secondsLeft := 15 }

/-- The alcohol-status normalization inside `handleDataEvent`: exactly the
raw tokens "normal" and "abnormal" map to the determinate statuses, every
other payload leaves the default indeterminate status. -/
def alcoholStatusOf (d : SensorData) : String :=
  match d.alcoholLevel with
  | some lvl =>
    if lvl = "normal" then "Трезвый"
    else if lvl = "abnormal" then "Пьяный"
    else "Не определено"
  | none => "Не определено"

/-- Handler `handleDataEvent` of the named variant.  An empty packet returns with no
change.  Otherwise the stability counter becomes
`min (stabilityTime + 1) MAX_STABILITY_TIME`, the temperature value is
overwritten only while the current stage is TEMPERATURE, and the alcohol
status only while it is ALCOHOL. -/
def handleDataEvent (s : HealthCheckState) (d : Option SensorData) : HealthCheckState :=
  match d with
  | none => s
  | some data =>
    { s with
      stabilityTime := min (s.stabilityTime + 1) MAX_STABILITY_TIME
      temperature :=
        if s.currentState = .TEMPERATURE then data.temperature.getD 0
        else s.temperature
      alcoholLevel :=
        if s.currentState = .ALCOHOL then alcoholStatusOf data
        else s.alcoholLevel }

/-- Handler `handleDataEvent` together with its liveness side effect: a non-empty
packet reschedules the timeout to `now + SOCKET_TIMEOUT`. -/
def handleDataEventTimed (s : HealthCheckState) (r : TimerRefs) (now : Nat)
    (d : Option SensorData) : HealthCheckState × TimerRefs :=
  match d with
  | none => (s, r)
  | some data => (handleDataEvent s (some data), resetDeadline r now)

/-- Folds `handleDataEvent` over a whole sequence of accepted (non-empty)
sensor packets. -/
def processAll (s : HealthCheckState) (ds : List SensorData) : HealthCheckState :=
  ds.foldl (fun acc d => handleDataEvent acc (some d)) s

/-- Socket channels registered by `configureSocketListeners`. -/
inductive Channel where
  | temperature
  | alcohol
  | camera
deriving DecidableEq, Repr

/-- Which channels have a data listener attached for a given current stage,
per `configureSocketListeners`: the temperature channel only during
TEMPERATURE, the alcohol channel only during ALCOHOL, the camera channel
always. -/
def listensTo (current : StateKey) : Channel → Bool
  | .temperature => current == .TEMPERATURE
  | .alcohol => current == .ALCOHOL
  | .camera => true

/-- The stage a channel is tagged with (the camera channel carries no
stage tag). -/
def channelStage : Channel → Option StateKey
  | .temperature => some .TEMPERATURE
  | .alcohol => some .ALCOHOL
  | .camera => none

/-- Delivery of one socket event: the data handler runs only if a listener
is attached for that channel under the current stage. -/
def receive (s : HealthCheckState) (c : Channel) (d : Option SensorData) :
    HealthCheckState :=
  if listensTo s.currentState c then handleDataEvent s d else s

/-- The effect's `onData` wrapper navigates to complete-authentication
exactly when the current stage is ALCOHOL and the payload carries the raw
token "normal" or "abnormal". -/
def onDataNavigates (current : StateKey) (d : SensorData) : Bool :=
  current == .ALCOHOL &&
    match d.alcoholLevel with
    | some lvl => lvl == "normal" || lvl == "abnormal"
    | none => false

/-- Stage progress computed by the appended `HealthCheck` page (percentage,
integer-scaled): `(stabilityTime / MAX_STABILITY_TIME) * 100` during
TEMPERATURE, and 100 during ALCOHOL exactly when the alcohol status is
determinate. -/
def progress (s : HealthCheckState) : Nat :=
  match s.currentState with
  | .TEMPERATURE => s.stabilityTime * 100 / MAX_STABILITY_TIME
  | .ALCOHOL => if s.alcoholLevel ≠ "Не определено" then 100 else 0

/-- Submission payload of the named variant
(`temperatureData`/`alcoholData` flattened). -/
structure Payload where
  temperature : Int
  alcoholLevel : String
  faceId : String
deriving DecidableEq, Repr

/-- Synchronous section of `handleComplete` (named variant).  Guard check,
stage advance with counter reset, `faceId` lookup (passed in, read from
`localStorage`), and issuing the fetch.  The `faceId`-missing throw is
caught by the surrounding catch, which releases the guard. -/
def handleCompleteStart (s : HealthCheckState) (r : SubmitRefs)
    (faceId : Option String) :
    CompleteAction Payload × HealthCheckState × SubmitRefs :=
  if r.isSubmitting then (.noop, s, r)
  else
    let currentIndex := STATE_SEQUENCE.indexOf s.currentState
    if currentIndex < STATE_SEQUENCE.length - 1 then
      (.advanced,
       { s with
         currentState := STATE_SEQUENCE.getD (currentIndex + 1) s.currentState
         stabilityTime := 0 },
       { r with isSubmitting := false })
    else
      match faceId with
      | none => (.preconditionFailed, s, { r with isSubmitting := false })
      | some fid =>
        (.pendingFetch
           { temperature := s.temperature
             alcoholLevel := s.alcoholLevel
             faceId := fid },
         s,
         { r with isSubmitting := true })

/-- Tagged JSON scalar, for the flat `results` record. -/
inductive JsonVal where
  | num (n : Int)
  | str (s : String)
deriving DecidableEq, Repr

/-- The durable `results` record written to `localStorage` on successful
submission: temperature value and alcohol status taken from the state at
the moment of submission. -/
def resultsRecord (s : HealthCheckState) : List (String × JsonVal) :=
  [("temperature", JsonVal.num s.temperature),
   ("alcohol", JsonVal.str s.alcoholLevel)]

/-- Reading one key back out of a stored flat record. -/
def readRecord (rec : List (String × JsonVal)) (key : String) : Option JsonVal :=
  rec.lookup key

/-- Result of the resume of `handleComplete` after the fetch resolves. -/
structure FinishResult where
  refs : SubmitRefs
  written : Option (List (String × JsonVal))
  navigatedComplete : Bool
deriving DecidableEq, Repr

/-- Resume of `handleComplete` (named variant) once the fetch settles.  On
a 2xx response it writes the `results` record and navigates to
complete-authentication, leaving `isSubmitting` untouched (still set); any
failure lands in the catch, which releases the guard. -/
def handleCompleteFinish (s : HealthCheckState) (r : SubmitRefs)
    (fetchOk : Bool) : FinishResult :=
  if fetchOk then
    { refs := r, written := some (resultsRecord s), navigatedComplete := true }
  else
    { refs := { r with isSubmitting := false }, written := none
      navigatedComplete := false }

/-- Runs `n` further `handleComplete` calls in sequence (each one's
synchronous section), returning the final state, final refs, and the total
number of network submission attempts performed. -/
def callRepeatedly (s : HealthCheckState) (r : SubmitRefs)
    (faceId : Option String) : Nat → HealthCheckState × SubmitRefs × Nat
  | 0 => (s, r, 0)
  | n + 1 =>
    let t := handleCompleteStart s r faceId
    let rest := callRepeatedly t.2.1 t.2.2 faceId n
    (rest.1, rest.2.1, attemptsOf t.1 + rest.2.2)

/-- Override `setCurrentState` as returned by the hook: it forwards either a plain
value or an updater function into `updateState` with only the
`currentState` key, leaving every other state field (the stability counter
included) as it was. -/
def setCurrentState (s : HealthCheckState)
    (upd : StateKey ⊕ (StateKey → StateKey)) : HealthCheckState :=
  { s with
    currentState :=
      match upd with
      | Sum.inl v => v
      | Sum.inr f => f s.currentState }

end HealthTrack.HC

namespace HealthTrack.HCF

open HealthTrack

/-- Sensor payload of the unnamed variant: `temperature?`, `alcoholLevel?`,
`measurementComplete?`. -/
structure FSensorData where
  temperature : Option Int
  alcoholLevel : Option String
  measurementComplete : Bool
deriving DecidableEq, Repr

/-- State record `HealthCheckState` of the unnamed variant: `alcoholLevel` starts as
`null` and the preloaded `faceId` lives in the state. -/
structure FState where
  currentState : StateKey
  stabilityTime : Nat
  temperature : Int
  alcoholLevel : Option String
  faceId : Option String
  secondsLeft : Nat
deriving DecidableEq, Repr

/-- Initial state passed to `useState` (before the face-id preload effect). -/
def initialFState : FState :=
  { currentState := .TEMPERATURE
    stabilityTime := 0
    temperature := 0
    alcoholLevel := none
    faceId := none
    secondsLeft := 15 }

/-- Side effects of one `handleDataEvent` call of the unnamed variant:
the `alcoholResult` record written to `localStorage` on finalization, and
whether the delayed navigation to complete-authentication was scheduled. -/
structure DataEffects where
  wroteAlcoholResult : Option String
  scheduledNav : Bool
deriving DecidableEq, Repr

/-- Handler `handleDataEvent` of the unnamed variant.  A truthy `temperature` field
updates the temperature value and bumps the stability counter (saturating
at `MAX_STABILITY_TIME`), irrespective of the current stage.  When
`measurementComplete` is set and the alcohol token is exactly "normal" or
"abnormal", the verdict is finalized: the counter jumps to
`MAX_STABILITY_TIME`, the verdict is stored, the `alcoholResult` record is
written and navigation is scheduled.  Any other alcohol payload changes
nothing. -/
def fHandleDataEvent (s : FState) (d : Option FSensorData) :
    FState × DataEffects :=
  match d with
  | none => (s, { wroteAlcoholResult := none, scheduledNav := false })
  | some data =>
    let s1 :=
      match data.temperature with
      | some t =>
        { s with
          temperature := t
          stabilityTime := min (s.stabilityTime + 1) MAX_STABILITY_TIME }
      | none => s
    if data.measurementComplete &&
        (data.alcoholLevel == some "normal" ||
         data.alcoholLevel == some "abnormal") then
      let lvl := data.alcoholLevel.getD ""
      ({ s1 with
         stabilityTime := MAX_STABILITY_TIME
         alcoholLevel := some lvl },
       { wroteAlcoholResult := some lvl, scheduledNav := true })
    else
      (s1, { wroteAlcoholResult := none, scheduledNav := false })

/-- Submission payload of the unnamed variant; `alcoholData` is dropped
(`undefined`) when the stored verdict is absent or empty. -/
structure FPayload where
  temperature : Int
  alcohol : Option String
  faceId : String
deriving DecidableEq, Repr

/-- The truthiness test `state.alcoholData.alcoholLevel ? ... : undefined`
applied when building the payload. -/
def payloadAlcohol (a : Option String) : Option String :=
  match a with
  | some lvl => if lvl = "" then none else some lvl
  | none => none

/-- Synchronous section of `handleComplete` (unnamed variant).  Guard
check, stage advance with counter reset, explicit precondition check on the
preloaded `faceId` (error toast, guard released, no fetch), then issuing
the fetch with the guard held. -/
def fHandleCompleteStart (s : FState) (r : SubmitRefs) :
    CompleteAction FPayload × FState × SubmitRefs :=
  if r.isSubmitting then (.noop, s, r)
  else
    let currentIndex := STATE_SEQUENCE.indexOf s.currentState
    if currentIndex < STATE_SEQUENCE.length - 1 then
      (.advanced,
       { s with
         currentState := STATE_SEQUENCE.getD (currentIndex + 1) s.currentState
         stabilityTime := 0 },
       { r with isSubmitting := false })
    else
      match s.faceId with
      | none => (.preconditionFailed, s, { r with isSubmitting := false })
      | some fid =>
        (.pendingFetch
           { temperature := s.temperature
             alcohol := payloadAlcohol s.alcoholLevel
             faceId := fid },
         s,
         { r with isSubmitting := true })

/-- Resume of `handleComplete` (unnamed variant) once the fetch settles:
success navigates to complete-authentication with the guard left set;
failure shows the error toast and releases the guard.  The `Bool` result
is the completed-navigation signal. -/
def fHandleCompleteFinish (r : SubmitRefs) (fetchOk : Bool) :
    SubmitRefs × Bool :=
  if fetchOk then (r, true)
  else ({ r with isSubmitting := false }, false)

/-- Override `setCurrentState` of the unnamed variant: identical shape to the named
one — only the `currentState` key is written. -/
def fSetCurrentState (s : FState)
    (upd : StateKey ⊕ (StateKey → StateKey)) : FState :=
  { s with
    currentState :=
      match upd with
      | Sum.inl v => v
      | Sum.inr f => f s.currentState }

/-- A valid temperature reading carrying coerced value `t`. -/
def tempEvent (t : Int) : FSensorData :=
  { temperature := some t, alcoholLevel := none, measurementComplete := false }

/-- A determinate, device-finalized alcohol verdict event. -/
def alcoholFinalEvent (lvl : String) : FSensorData :=
  { temperature := none, alcoholLevel := some lvl, measurementComplete := true }

/-- Observable outcome of the fixed end-to-end scenario. -/
structure ScenarioResult where
  finalState : FState
  payload : Option FPayload
  attempts : Nat
  completedNav : Bool
deriving DecidableEq, Repr

/-- The fixed scenario: starting from the initial state with the face id
preloaded, process the given temperature readings, invoke `handleComplete`
(as the page's `onComplete` does once the stage's progress is full),
process one finalized "normal" alcohol verdict, invoke `handleComplete`
again, and let the fetch succeed. -/
def runScenario (fid : String) (ts : List Int) : ScenarioResult :=
  let s0 : FState := { initialFState with faceId := some fid }
  let s7 := ts.foldl (fun s t => (fHandleDataEvent s (some (tempEvent t))).1) s0
  let adv := fHandleCompleteStart s7 { isSubmitting := false }
  let s9 := (fHandleDataEvent adv.2.1 (some (alcoholFinalEvent "normal"))).1
  let sub := fHandleCompleteStart s9 adv.2.2
  match sub.1 with
  | .pendingFetch p =>
    let fin := fHandleCompleteFinish sub.2.2 true
    { finalState := sub.2.1, payload := some p
      attempts := attemptsOf sub.1, completedNav := fin.2 }
  | _ =>
    { finalState := sub.2.1, payload := none
      attempts := attemptsOf sub.1, completedNav := false }

end HealthTrack.HCF

namespace HealthTrack

/-- Once the timeout latch is set, any number of further expirations changes
nothing and fires nothing. -/
lemma fireExpiries_latched : ∀ (n : Nat) (r : TimerRefs), r.hasTimedOut = true →
    fireExpiries r n = (r, 0)
  | 0, _, _ => rfl
  | n + 1, r, h => by
    simp only [fireExpiries, handleTimeout, h, if_true]
    simp [fireExpiries_latched n r h]

/-- With the in-flight guard set, the named variant's `handleComplete`
returns immediately, leaving state and refs untouched. -/
lemma handleCompleteStart_locked (s : HC.HealthCheckState) (r : SubmitRefs)
    (fid : Option String) (h : r.isSubmitting = true) :
    HC.handleCompleteStart s r fid = (.noop, s, r) := by
  simp [HC.handleCompleteStart, h]

/-- With the in-flight guard set, the unnamed variant's `handleComplete`
returns immediately, leaving state and refs untouched. -/
lemma fHandleCompleteStart_locked (s : HCF.FState) (r : SubmitRefs)
    (h : r.isSubmitting = true) :
    HCF.fHandleCompleteStart s r = (.noop, s, r) := by
  simp [HCF.fHandleCompleteStart, h]

/-- The stage-advance path of the named variant, explicitly: from an
unlocked call at the TEMPERATURE stage the state moves to ALCOHOL with the
counter reset and the guard released. -/
lemma handleCompleteStart_advance (s : HC.HealthCheckState) (r : SubmitRefs)
    (fid : Option String) (h : r.isSubmitting = false)
    (hcs : s.currentState = .TEMPERATURE) :
    HC.handleCompleteStart s r fid =
      (.advanced, { s with currentState := .ALCOHOL, stabilityTime := 0 },
       { isSubmitting := false }) := by
  rcases s with ⟨cs, st, te, al, sec⟩
  rcases r with ⟨b⟩
  simp only at hcs h
  subst hcs
  subst h
  rfl

/-- On the fetch path the guard is held, the state is untouched, and the
payload carries exactly the snapshot's per-stage values. -/
lemma handleCompleteStart_pending
    {s s' : HC.HealthCheckState} {r r' : SubmitRefs} {fid : Option String}
    {p : HC.Payload}
    (h : HC.handleCompleteStart s r fid = (.pendingFetch p, s', r')) :
    r'.isSubmitting = true ∧ s' = s ∧
    p.temperature = s.temperature ∧ p.alcoholLevel = s.alcoholLevel := by
  rcases r with ⟨b⟩
  cases b with
  | true =>
    rw [handleCompleteStart_locked _ _ _ rfl] at h
    exact absurd h (by simp)
  | false =>
    rcases s with ⟨cs, st, te, al, sec⟩
    cases cs with
    | TEMPERATURE =>
      rw [handleCompleteStart_advance _ _ _ rfl rfl] at h
      exact absurd h (by simp)
    | ALCOHOL =>
      cases fid with
      | none =>
        have hc : HC.handleCompleteStart ⟨.ALCOHOL, st, te, al, sec⟩ ⟨false⟩ none
            = (.preconditionFailed, ⟨.ALCOHOL, st, te, al, sec⟩, ⟨false⟩) := rfl
        rw [hc] at h
        exact absurd h (by simp)
      | some f =>
        have hc : HC.handleCompleteStart ⟨.ALCOHOL, st, te, al, sec⟩ ⟨false⟩ (some f)
            = (.pendingFetch ⟨te, al, f⟩, ⟨.ALCOHOL, st, te, al, sec⟩, ⟨true⟩) := rfl
        rw [hc] at h
        simp only [Prod.mk.injEq, CompleteAction.pendingFetch.injEq] at h
        obtain ⟨hp, hs, hr⟩ := h
        subst hr
        subst hs
        subst hp
        exact ⟨rfl, rfl, rfl, rfl⟩

/-- Whenever the named variant's `handleComplete` takes the advanced path,
the counter is reset and the stage really changed. -/
lemma handleCompleteStart_advanced_changes
    {s s' : HC.HealthCheckState} {r r' : SubmitRefs} {fid : Option String}
    (h : HC.handleCompleteStart s r fid = (.advanced, s', r')) :
    s'.stabilityTime = 0 ∧ s'.currentState ≠ s.currentState := by
  rcases s with ⟨cs, st, te, al, sec⟩
  rcases r with ⟨b⟩
  cases b with
  | true => simp [handleCompleteStart_locked _ _ _ rfl] at h
  | false =>
    cases cs with
    | TEMPERATURE =>
      rw [handleCompleteStart_advance _ _ _ rfl rfl] at h
      simp only [Prod.mk.injEq] at h
      obtain ⟨-, hs, -⟩ := h
      subst hs
      exact ⟨rfl, by simp⟩
    | ALCOHOL =>
      cases fid with
      | none =>
        have hc : HC.handleCompleteStart ⟨.ALCOHOL, st, te, al, sec⟩ ⟨false⟩ none
            = (.preconditionFailed, ⟨.ALCOHOL, st, te, al, sec⟩, ⟨false⟩) := rfl
        rw [hc] at h
        exact absurd h (by simp)
      | some f =>
        have hc : HC.handleCompleteStart ⟨.ALCOHOL, st, te, al, sec⟩ ⟨false⟩ (some f)
            = (.pendingFetch ⟨te, al, f⟩, ⟨.ALCOHOL, st, te, al, sec⟩, ⟨true⟩) := rfl
        rw [hc] at h
        exact absurd h (by simp)

/-- With the guard held, every further `handleComplete` call is a no-op:
no state change, no refs change, zero submission attempts. -/
lemma callRepeatedly_locked : ∀ (n : Nat) (s : HC.HealthCheckState)
    (r : SubmitRefs) (fid : Option String), r.isSubmitting = true →
    HC.callRepeatedly s r fid n = (s, r, 0)
  | 0, _, _, _, _ => rfl
  | n + 1, s, r, fid, h => by
    simp only [HC.callRepeatedly, handleCompleteStart_locked s r fid h]
    simp [callRepeatedly_locked n s r fid h, attemptsOf]

/-- Bounds and stage preservation of the stability counter over any
sequence of accepted readings (named variant). -/
lemma processAll_bounds : ∀ (ds : List HC.SensorData) (s : HC.HealthCheckState),
    s.stabilityTime ≤ MAX_STABILITY_TIME →
      s.stabilityTime ≤ (HC.processAll s ds).stabilityTime ∧
      (HC.processAll s ds).stabilityTime ≤ MAX_STABILITY_TIME ∧
      (HC.processAll s ds).currentState = s.currentState
  | [], s, h => ⟨le_refl _, h, rfl⟩
  | d :: ds, s, h => by
    have hstep : (HC.handleDataEvent s (some d)).stabilityTime
        = min (s.stabilityTime + 1) MAX_STABILITY_TIME := rfl
    have hstage : (HC.handleDataEvent s (some d)).currentState = s.currentState := rfl
    have h1 : (HC.handleDataEvent s (some d)).stabilityTime ≤ MAX_STABILITY_TIME := by
      rw [hstep]; exact min_le_right _ _
    have h0 : s.stabilityTime ≤ (HC.handleDataEvent s (some d)).stabilityTime := by
      rw [hstep]; exact le_min (Nat.le_succ _) h
    have ih := processAll_bounds ds (HC.handleDataEvent s (some d)) h1
    have hfold : HC.processAll s (d :: ds)
        = HC.processAll (HC.handleDataEvent s (some d)) ds := rfl
    rw [hfold]
    exact ⟨le_trans h0 ih.1, ih.2.1, by rw [ih.2.2, hstage]⟩

/-- C1.  While a `handleComplete` call is outstanding the in-flight guard is
set, so a second call returns immediately as a no-op (state, refs and
attempt count all unchanged); two calls in rapid succession on the
submission path perform exactly one network submission attempt. -/
theorem c1_inflight_guard :
    (∀ (s : HC.HealthCheckState) (r : SubmitRefs) (fid : Option String),
      r.isSubmitting = true →
        HC.handleCompleteStart s r fid = (.noop, s, r) ∧
        attemptsOf (HC.handleCompleteStart s r fid).1 = 0) ∧
    (∀ (s s' : HC.HealthCheckState) (r r' : SubmitRefs) (fid : Option String)
        (p : HC.Payload),
      HC.handleCompleteStart s r fid = (.pendingFetch p, s', r') →
        r'.isSubmitting = true ∧
        HC.handleCompleteStart s' r' fid = (.noop, s', r') ∧
        attemptsOf (HC.handleCompleteStart s r fid).1 +
          attemptsOf (HC.handleCompleteStart s' r' fid).1 = 1) := by
  constructor
  · intro s r fid h
    refine ⟨handleCompleteStart_locked s r fid h, ?_⟩
    rw [handleCompleteStart_locked s r fid h]
    rfl
  · intro s s' r r' fid p h
    have hp := handleCompleteStart_pending h
    refine ⟨hp.1, handleCompleteStart_locked s' r' fid hp.1, ?_⟩
    rw [h, handleCompleteStart_locked s' r' fid hp.1]
    rfl

/-- Witness for C1 at a concrete input: a locked call no-ops. -/
theorem c1_inflight_guard_witness :
    HC.handleCompleteStart HC.initialState { isSubmitting := true } (some "face-1") =
      (.noop, HC.initialState, { isSubmitting := true }) :=
  (c1_inflight_guard.1 HC.initialState { isSubmitting := true } (some "face-1") rfl).1

/-- C2.  The stability counter starts at 0; each accepted reading takes it
to `min (old + 1) 7`, so below the threshold it increments by exactly 1,
it never exceeds 7, never returns to 0 on a reading, and is monotonically
non-decreasing over any sequence of accepted readings, during which the
stage never changes; the advance path that resets it to 0 always changes
the stage. -/
theorem c2_stability_counter :
    HC.initialState.stabilityTime = 0 ∧
    (∀ (s : HC.HealthCheckState) (d : HC.SensorData),
      (HC.handleDataEvent s (some d)).stabilityTime
          = min (s.stabilityTime + 1) MAX_STABILITY_TIME ∧
      (s.stabilityTime < MAX_STABILITY_TIME →
        (HC.handleDataEvent s (some d)).stabilityTime = s.stabilityTime + 1) ∧
      (HC.handleDataEvent s (some d)).stabilityTime ≤ MAX_STABILITY_TIME ∧
      (HC.handleDataEvent s (some d)).stabilityTime ≠ 0 ∧
      (HC.handleDataEvent s (some d)).currentState = s.currentState) ∧
    (∀ (ds : List HC.SensorData) (s : HC.HealthCheckState),
      s.stabilityTime ≤ MAX_STABILITY_TIME →
        s.stabilityTime ≤ (HC.processAll s ds).stabilityTime ∧
        (HC.processAll s ds).stabilityTime ≤ MAX_STABILITY_TIME ∧
        (HC.processAll s ds).currentState = s.currentState) ∧
    (∀ (s s' : HC.HealthCheckState) (r r' : SubmitRefs) (fid : Option String),
      HC.handleCompleteStart s r fid = (.advanced, s', r') →
        s'.stabilityTime = 0 ∧ s'.currentState ≠ s.currentState) := by
  refine ⟨rfl, ?_, ?_, ?_⟩
  · intro s d
    refine ⟨rfl, ?_, min_le_right _ _, ?_, rfl⟩
    · intro hlt
      show min (s.stabilityTime + 1) MAX_STABILITY_TIME = s.stabilityTime + 1
      exact min_eq_left (Nat.succ_le_of_lt hlt)
    · show min (s.stabilityTime + 1) MAX_STABILITY_TIME ≠ 0
      have h1 : 1 ≤ min (s.stabilityTime + 1) MAX_STABILITY_TIME :=
        le_min (Nat.succ_le_succ (Nat.zero_le _)) (by norm_num [MAX_STABILITY_TIME])
      omega
  · intro ds s h
    exact processAll_bounds ds s h
  · intro s s' r r' fid h
    exact handleCompleteStart_advanced_changes h

/-- Witness for C2 at a concrete input: one accepted reading from the
initial state takes the counter to 1 and keeps the stage. -/
theorem c2_stability_counter_witness :
    HC.initialState.stabilityTime ≤ MAX_STABILITY_TIME ∧
    (HC.processAll HC.initialState
        [{ temperature := some 36, alcoholLevel := none }]).stabilityTime
      ≤ MAX_STABILITY_TIME :=
  ⟨by decide,
   (c2_stability_counter.2.2.1
      [{ temperature := some 36, alcoholLevel := none }]
      HC.initialState (by decide)).2.1⟩

end HealthTrack

namespace HealthTrack

/-- C3.  From the initial state (stage TEMPERATURE, counter 0), 7 valid
temperature readings followed by one determinate finalized "normal" alcohol
verdict drive the session to the completed hand-off with exactly one
submission, whose payload carries the last temperature reading's value and
the "normal" verdict (finalized-verdict variant, whose payload shape the
claim describes). -/
theorem c3_fixed_sequence_scenario (fid : String) (t1 t2 t3 t4 t5 t6 t7 : Int) :
    (HCF.runScenario fid [t1, t2, t3, t4, t5, t6, t7]).payload
        = some { temperature := t7, alcohol := some "normal", faceId := fid } ∧
    (HCF.runScenario fid [t1, t2, t3, t4, t5, t6, t7]).attempts = 1 ∧
    (HCF.runScenario fid [t1, t2, t3, t4, t5, t6, t7]).completedNav = true ∧
    (HCF.runScenario fid [t1, t2, t3, t4, t5, t6, t7]).finalState.currentState
        = .ALCOHOL ∧
    (HCF.runScenario fid [t1, t2, t3, t4, t5, t6, t7]).finalState.alcoholLevel
        = some "normal" ∧
    (HCF.runScenario fid [t1, t2, t3, t4, t5, t6, t7]).finalState.temperature = t7 :=
  ⟨rfl, rfl, rfl, rfl, rfl, rfl⟩

/-- C4 counterexample: in the finalized-verdict variant a TEMPERATURE-tagged
reading processed while the current stage is ALCOHOL mutates the session
state — the stability counter is incremented and the stored temperature
overwritten — refuting the claim that such a reading never mutates
`SessionState`. -/
theorem c4_cross_stage_counterexample :
    (HCF.fHandleDataEvent { HCF.initialFState with currentState := .ALCOHOL }
        (some (HCF.tempEvent 36))).1.stabilityTime = 1 ∧
    (HCF.fHandleDataEvent { HCF.initialFState with currentState := .ALCOHOL }
        (some (HCF.tempEvent 36))).1.temperature = 36 ∧
    ¬ ((HCF.fHandleDataEvent { HCF.initialFState with currentState := .ALCOHOL }
        (some (HCF.tempEvent 36))).1
      = { HCF.initialFState with currentState := .ALCOHOL }) :=
  ⟨rfl, rfl, by decide⟩

/-- C4 amended: in the named variant a reading arriving on a channel tagged
with a stage other than the current one is never delivered to the data
handler (its listener is not attached), so the session state is left
unchanged; in the finalized-verdict variant both stage channels are always
subscribed and a cross-stage temperature reading does mutate the state. -/
theorem c4_cross_stage_amended :
    ∀ (s : HC.HealthCheckState) (c : HC.Channel) (d : Option HC.SensorData)
      (stg : StateKey),
      HC.channelStage c = some stg → stg ≠ s.currentState →
        HC.receive s c d = s := by
  intro s c d stg h1 h2
  cases c with
  | camera => simp [HC.channelStage] at h1
  | temperature =>
    simp only [HC.channelStage, Option.some.injEq] at h1
    subst h1
    have hb : (s.currentState == StateKey.TEMPERATURE) = false :=
      beq_false_of_ne (Ne.symm h2)
    simp [HC.receive, HC.listensTo, hb]
  | alcohol =>
    simp only [HC.channelStage, Option.some.injEq] at h1
    subst h1
    have hb : (s.currentState == StateKey.ALCOHOL) = false :=
      beq_false_of_ne (Ne.symm h2)
    simp [HC.receive, HC.listensTo, hb]

/-- Witness for the amended C4: an ALCOHOL-tagged reading delivered while
the stage is TEMPERATURE leaves the state unchanged. -/
theorem c4_cross_stage_amended_witness :
    HC.receive HC.initialState .alcohol
        (some { temperature := none, alcoholLevel := some "normal" })
      = HC.initialState :=
  c4_cross_stage_amended HC.initialState .alcohol
    (some { temperature := none, alcoholLevel := some "normal" })
    .ALCOHOL rfl (by decide)

/-- C5.  An accepted reading schedules the timeout exactly
`SOCKET_TIMEOUT = 15000` ms later; from the unlatched state an expiry fires
the timed-out signal and sets the latch; a latched expiry is a no-op, so
any positive number of expiries fires the signal exactly once. -/
theorem c5_timeout_latch :
    (∀ (s : HC.HealthCheckState) (r : TimerRefs) (now : Nat) (d : HC.SensorData),
      (HC.handleDataEventTimed s r now (some d)).2.deadline
          = some (now + SOCKET_TIMEOUT)) ∧
    SOCKET_TIMEOUT = 15000 ∧
    (∀ dl, handleTimeout { hasTimedOut := false, deadline := dl }
        = ({ hasTimedOut := true, deadline := dl }, true)) ∧
    (∀ r : TimerRefs, r.hasTimedOut = true → handleTimeout r = (r, false)) ∧
    (∀ (r : TimerRefs) (n : Nat), r.hasTimedOut = false →
        (fireExpiries r (n + 1)).2 = 1) := by
  refine ⟨fun s r now d => rfl, rfl, fun dl => rfl, ?_, ?_⟩
  · intro r h
    simp [handleTimeout, h]
  · intro r n h
    have hr : handleTimeout r = ({ r with hasTimedOut := true }, true) := by
      simp [handleTimeout, h]
    simp only [fireExpiries, hr]
    simp [fireExpiries_latched n { r with hasTimedOut := true } rfl]

/-- Witness for C5: three expiries in a row from the unlatched monitor fire
exactly one timed-out signal. -/
theorem c5_timeout_latch_witness :
    (fireExpiries { hasTimedOut := false, deadline := some SOCKET_TIMEOUT } 3).2 = 1 :=
  c5_timeout_latch.2.2.2.2
    { hasTimedOut := false, deadline := some SOCKET_TIMEOUT } 2 rfl

/-- C6.  If the identity token is absent when submission is attempted at
the last stage, both variants report a precondition failure immediately,
perform zero network attempts, and release the in-flight guard; a later
call on the same state with the token present reaches the fetch. -/
theorem c6_missing_token :
    (∀ (s : HCF.FState) (r : SubmitRefs),
      r.isSubmitting = false → s.currentState = .ALCOHOL → s.faceId = none →
        HCF.fHandleCompleteStart s r
            = (.preconditionFailed, s, { isSubmitting := false }) ∧
        attemptsOf (HCF.fHandleCompleteStart s r).1 = 0) ∧
    (∀ (s : HCF.FState) (fid : String),
      s.currentState = .ALCOHOL →
        HCF.fHandleCompleteStart { s with faceId := some fid }
            { isSubmitting := false }
          = (.pendingFetch
               { temperature := s.temperature
                 alcohol := HCF.payloadAlcohol s.alcoholLevel
                 faceId := fid },
             { s with faceId := some fid }, { isSubmitting := true })) ∧
    (∀ (s : HC.HealthCheckState) (r : SubmitRefs),
      r.isSubmitting = false → s.currentState = .ALCOHOL →
        HC.handleCompleteStart s r none
          = (.preconditionFailed, s, { isSubmitting := false })) := by
  refine ⟨?_, ?_, ?_⟩
  · intro s r h1 h2 h3
    rcases s with ⟨cs, st, te, al, fi, sec⟩
    rcases r with ⟨b⟩
    simp only at h1 h2 h3
    subst h1
    subst h2
    subst h3
    exact ⟨rfl, rfl⟩
  · intro s fid h2
    rcases s with ⟨cs, st, te, al, fi, sec⟩
    simp only at h2
    subst h2
    rfl
  · intro s r h1 h2
    rcases s with ⟨cs, st, te, al, sec⟩
    rcases r with ⟨b⟩
    simp only at h1 h2
    subst h1
    subst h2
    rfl

/-- Witness for C6: from the last stage with no token, the call reports the
precondition failure with the guard released. -/
theorem c6_missing_token_witness :
    HCF.fHandleCompleteStart { HCF.initialFState with currentState := .ALCOHOL }
        { isSubmitting := false }
      = (.preconditionFailed,
         { HCF.initialFState with currentState := .ALCOHOL },
         { isSubmitting := false }) :=
  (c6_missing_token.1 { HCF.initialFState with currentState := .ALCOHOL }
    { isSubmitting := false } rfl rfl rfl).1

end HealthTrack

namespace HealthTrack

/-- At the last stage with no token, the named variant's `handleComplete`
throws before the fetch; the catch releases the guard. -/
lemma handleCompleteStart_noface (s : HC.HealthCheckState) (r : SubmitRefs)
    (h1 : r.isSubmitting = false) (h2 : s.currentState = .ALCOHOL) :
    HC.handleCompleteStart s r none
      = (.preconditionFailed, s, { isSubmitting := false }) := by
  rcases s with ⟨cs, st, te, al, sec⟩
  rcases r with ⟨b⟩
  simp only at h1 h2
  subst h1
  subst h2
  rfl

/-- C7 counterexample: in the named variant an indeterminate alcohol
reading (raw token "xyz", which normalizes to the indeterminate status)
still increments the stability counter from 0 to 1, refuting the claim
that an indeterminate reading does not increment the counter. -/
theorem c7_indeterminate_counterexample :
    HC.alcoholStatusOf { temperature := none, alcoholLevel := some "xyz" }
        = "Не определено" ∧
    ({ HC.initialState with currentState := .ALCOHOL } :
        HC.HealthCheckState).stabilityTime = 0 ∧
    (HC.handleDataEvent { HC.initialState with currentState := .ALCOHOL }
        (some { temperature := none, alcoholLevel := some "xyz" })).stabilityTime
      = 1 :=
  ⟨rfl, rfl, rfl⟩

/-- C7 amended: normalization maps exactly the raw tokens "normal" and
"abnormal" to a determinate status, and any other value to the
indeterminate one; an indeterminate reading never finalizes the stage — in
the named variant the stage progress stays 0 and the completion navigation
does not fire, and in the finalized-verdict variant the state is left
entirely unchanged — but in the named variant the stability counter still
increments on any non-empty packet, indeterminate ones included. -/
theorem c7_verdict_normalization_amended :
    (∀ d : HC.SensorData,
      (HC.alcoholStatusOf d ≠ "Не определено") ↔
        (d.alcoholLevel = some "normal" ∨ d.alcoholLevel = some "abnormal")) ∧
    (∀ (s : HC.HealthCheckState) (d : HC.SensorData),
      s.currentState = .ALCOHOL → s.alcoholLevel = "Не определено" →
      d.alcoholLevel ≠ some "normal" → d.alcoholLevel ≠ some "abnormal" →
        HC.progress (HC.handleDataEvent s (some d)) = 0 ∧
        HC.onDataNavigates .ALCOHOL d = false) ∧
    (∀ (s : HCF.FState) (lvl : String) (mc : Bool),
      lvl ≠ "normal" → lvl ≠ "abnormal" →
        HCF.fHandleDataEvent s
            (some { temperature := none, alcoholLevel := some lvl,
                    measurementComplete := mc })
          = (s, { wroteAlcoholResult := none, scheduledNav := false })) := by
  refine ⟨?_, ?_, ?_⟩
  · intro d
    rcases d with ⟨te, al⟩
    cases al with
    | none =>
      simp only [HC.alcoholStatusOf]
      constructor
      · intro h
        exact absurd rfl h
      · rintro (h | h) <;> exact Option.noConfusion h
    | some lvl =>
      by_cases h1 : lvl = "normal"
      · subst h1
        constructor
        · intro _
          exact Or.inl rfl
        · intro _
          show ("Трезвый" : String) ≠ "Не определено"
          decide
      · by_cases h2 : lvl = "abnormal"
        · subst h2
          constructor
          · intro _
            exact Or.inr rfl
          · intro _
            show ("Пьяный" : String) ≠ "Не определено"
            decide
        · have hs : HC.alcoholStatusOf ⟨te, some lvl⟩ = "Не определено" := by
            simp [HC.alcoholStatusOf, h1, h2]
          constructor
          · intro h
            exact absurd hs h
          · rintro (h | h)
            · exact absurd (Option.some.inj h) h1
            · exact absurd (Option.some.inj h) h2
  · intro s d h1 h2 h3 h4
    have hst : HC.alcoholStatusOf d = "Не определено" := by
      rcases d with ⟨dte, dal⟩
      cases dal with
      | none => rfl
      | some lvl =>
        have hl1 : lvl ≠ "normal" := fun h => h3 (by rw [h])
        have hl2 : lvl ≠ "abnormal" := fun h => h4 (by rw [h])
        simp [HC.alcoholStatusOf, hl1, hl2]
    rcases s with ⟨cs, st, te, al, sec⟩
    simp only at h1 h2
    subst h1
    subst h2
    refine ⟨?_, ?_⟩
    · simp [HC.progress, HC.handleDataEvent, hst]
    · rcases d with ⟨dte, dal⟩
      cases dal with
      | none => rfl
      | some lvl =>
        have hb1 : (lvl == "normal") = false :=
          beq_false_of_ne (fun h => h3 (by rw [h]))
        have hb2 : (lvl == "abnormal") = false :=
          beq_false_of_ne (fun h => h4 (by rw [h]))
        simp [HC.onDataNavigates, hb1, hb2]
  · intro s lvl mc h1 h2
    have hb1 : ((some lvl : Option String) == some "normal") = false :=
      beq_false_of_ne (fun h => h1 (Option.some.inj h))
    have hb2 : ((some lvl : Option String) == some "abnormal") = false :=
      beq_false_of_ne (fun h => h2 (Option.some.inj h))
    simp [HCF.fHandleDataEvent, hb1, hb2]

/-- Witness for the amended C7: an unrecognized finalized verdict token
changes nothing in the finalized-verdict variant. -/
theorem c7_verdict_normalization_amended_witness :
    HCF.fHandleDataEvent HCF.initialFState
        (some { temperature := none, alcoholLevel := some "other",
                measurementComplete := true })
      = (HCF.initialFState,
         { wroteAlcoholResult := none, scheduledNav := false }) :=
  c7_verdict_normalization_amended.2.2 HCF.initialFState "other" true
    (by decide) (by decide)

/-- C8 counterexample: `setCurrentState` forces the stage to ALCOHOL but
leaves the stability counter at 5, refuting the claim that the manual
override always resets the counter to 0. -/
theorem c8_setstage_counterexample :
    (HC.setCurrentState { HC.initialState with stabilityTime := 5 }
        (Sum.inl .ALCOHOL)).currentState = .ALCOHOL ∧
    (HC.setCurrentState { HC.initialState with stabilityTime := 5 }
        (Sum.inl .ALCOHOL)).stabilityTime = 5 ∧
    ¬ ((HC.setCurrentState { HC.initialState with stabilityTime := 5 }
        (Sum.inl .ALCOHOL)).stabilityTime = 0) :=
  ⟨rfl, rfl, by decide⟩

/-- C8 amended: the manual override sets the current stage to the given
value (or applies the given updater to it) and leaves every other field of
the session state unchanged — in particular the stability counter is NOT
reset; the counter resets only on the `handleComplete` advance path.  Both
variants behave identically. -/
theorem c8_setstage_amended :
    ∀ (s : HC.HealthCheckState) (t : HCF.FState) (v : StateKey)
      (f : StateKey → StateKey),
      (HC.setCurrentState s (Sum.inl v)).currentState = v ∧
      (HC.setCurrentState s (Sum.inl v)).stabilityTime = s.stabilityTime ∧
      (HC.setCurrentState s (Sum.inr f)).currentState = f s.currentState ∧
      (HC.setCurrentState s (Sum.inr f)).stabilityTime = s.stabilityTime ∧
      (HC.setCurrentState s (Sum.inl v)).temperature = s.temperature ∧
      (HC.setCurrentState s (Sum.inl v)).alcoholLevel = s.alcoholLevel ∧
      (HCF.fSetCurrentState t (Sum.inl v)).currentState = v ∧
      (HCF.fSetCurrentState t (Sum.inl v)).stabilityTime = t.stabilityTime :=
  fun s t v f => ⟨rfl, rfl, rfl, rfl, rfl, rfl, rfl, rfl⟩

/-- C9.  The submission payload carries exactly the per-stage values of the
state snapshot, and the durable `results` record written on success, read
back key by key, reproduces exactly those values. -/
theorem c9_results_roundtrip :
    (∀ (s s' : HC.HealthCheckState) (r r' : SubmitRefs) (fid : Option String)
        (p : HC.Payload),
      HC.handleCompleteStart s r fid = (.pendingFetch p, s', r') →
        p.temperature = s.temperature ∧ p.alcoholLevel = s.alcoholLevel) ∧
    (∀ (s : HC.HealthCheckState) (r : SubmitRefs)
        (rec : List (String × HC.JsonVal)),
      (HC.handleCompleteFinish s r true).written = some rec →
        HC.readRecord rec "temperature" = some (.num s.temperature) ∧
        HC.readRecord rec "alcohol" = some (.str s.alcoholLevel) ∧
        (HC.handleCompleteFinish s r true).navigatedComplete = true) := by
  constructor
  · intro s s' r r' fid p h
    have hp := handleCompleteStart_pending h
    exact ⟨hp.2.2.1, hp.2.2.2⟩
  · intro s r rec h
    have hw : (HC.handleCompleteFinish s r true).written
        = some (HC.resultsRecord s) := rfl
    rw [hw] at h
    have hrec : rec = HC.resultsRecord s := (Option.some.inj h).symm
    subst hrec
    exact ⟨rfl, rfl, rfl⟩

/-- Witness for C9 at the initial state. -/
theorem c9_results_roundtrip_witness :
    HC.readRecord (HC.resultsRecord HC.initialState) "temperature"
        = some (.num HC.initialState.temperature) ∧
    HC.readRecord (HC.resultsRecord HC.initialState) "alcohol"
        = some (.str HC.initialState.alcoholLevel) :=
  let h := c9_results_roundtrip.2 HC.initialState { isSubmitting := true }
    (HC.resultsRecord HC.initialState) rfl
  ⟨h.1, h.2.1⟩

/-- C10.  After a successful submission the in-flight flag is left set
(the success path never clears it), so every later `handleComplete` call is
a no-op with zero network attempts and no state change; the flag is
released on the failure path, on the stage-advance path and on the
missing-token precondition path. -/
theorem c10_guard_kept_after_success :
    (∀ (s : HC.HealthCheckState) (r : SubmitRefs),
      (HC.handleCompleteFinish s r true).refs = r ∧
      (HC.handleCompleteFinish s r false).refs.isSubmitting = false) ∧
    (∀ (s : HC.HealthCheckState) (r : SubmitRefs) (fid : Option String) (n : Nat),
      r.isSubmitting = true →
        HC.callRepeatedly s r fid n = (s, r, 0)) ∧
    (∀ (s : HC.HealthCheckState) (r : SubmitRefs) (fid : Option String),
      r.isSubmitting = false → s.currentState = .TEMPERATURE →
        (HC.handleCompleteStart s r fid).2.2.isSubmitting = false) ∧
    (∀ (s : HC.HealthCheckState) (r : SubmitRefs),
      r.isSubmitting = false → s.currentState = .ALCOHOL →
        (HC.handleCompleteStart s r none).2.2.isSubmitting = false) ∧
    (∀ r : SubmitRefs, (HCF.fHandleCompleteFinish r true).1 = r) := by
  refine ⟨fun s r => ⟨rfl, rfl⟩,
          fun s r fid n h => callRepeatedly_locked n s r fid h, ?_, ?_,
          fun r => rfl⟩
  · intro s r fid h1 h2
    rw [handleCompleteStart_advance s r fid h1 h2]
  · intro s r h1 h2
    rw [handleCompleteStart_noface s r h1 h2]

/-- Witness for C10: with the guard still set after a success, four more
calls change nothing and perform zero attempts. -/
theorem c10_guard_kept_after_success_witness :
    HC.callRepeatedly HC.initialState { isSubmitting := true } (some "face-2") 4
      = (HC.initialState, { isSubmitting := true }, 0) :=
  c10_guard_kept_after_success.2.1 HC.initialState { isSubmitting := true }
    (some "face-2") 4 rfl

end HealthTrack
